import Mathlib

/-!
Verification development for the react-native-softphone-sdk repository.

The definitions below are a shallow embedding of the TypeScript source:
JWT access and SIP tokens are modelled by the outcome of decoding them
(`JwtToken`), JavaScript strings that may be null or empty are modelled as
`Option String` with an explicit truthiness test, asynchronous network
operations are modelled by explicit outcome parameters, and methods that
can throw are modelled as functions returning an error kind next to an
effect trace.

Sources embedded (latest revision of each file):
  src/utils/validation.ts        (isTokenValid)
  src/core/Auth.ts               (manualLogin, logout, refreshAccessToken outcome)
  src/core/Softphone.ts          (executeWithRetry, makeCall, logout)
  src/core/UserAgent.ts          (registerer state listener, reRegister, unregister)
  src/core/Session.ts            (stateChange listener, clearSession)
-/

/-! ## JWT token model and validation (src/utils/validation.ts) -/

/-- Result of attempting to decode a JWT string: the string can be empty
(falsy in JavaScript), the decoder can throw, or it decodes to a payload
whose numeric exp field is `some e` (a non-numeric or missing exp is
`none`). -/
inductive JwtToken
  | empty
  | undecodable
  | decoded (exp : Option Int)
  deriving DecidableEq, Repr

/-- Return value of isTokenValid: true, the string EXPIRED, or the string
INVALID. -/
inductive TokenStatus
  | valid
  | expired
  | invalid
  deriving DecidableEq, Repr

/-- isTokenValid from src/utils/validation.ts. An empty token is INVALID;
a token that fails to decode is INVALID; a decoded token whose exp field
is not a number is INVALID; otherwise the token is valid exactly when
exp is strictly greater than the current Unix time in seconds (taken
here as the parameter now). -/
def isTokenValid (now : Int) : JwtToken → TokenStatus
  | .empty => .invalid
  | .undecodable => .invalid
  | .decoded none => .invalid
  | .decoded (some e) => if now < e then .valid else .expired

/-! ## JavaScript string truthiness helpers -/

/-- JavaScript truthiness of a nullable string: null, undefined and the
empty string are falsy. -/
def truthy : Option String → Bool
  | none => false
  | some s => !s.isEmpty

/-- JavaScript `a || b` on nullable strings. -/
def jsOr (a b : Option String) : Option String := if truthy a then a else b

/-! ## Error taxonomy (src/exceptions/index.ts) -/

/-- Detail string carried by InvalidTokenException. -/
inductive TokenErrDetail
  | INVALID
  | EXPIRED
  deriving DecidableEq, Repr

/-- Exception kinds thrown by the SDK (src/exceptions/index.ts). -/
inductive ErrKind
  | missingParameter
  | invalidValue
  | unauthorized
  | invalidToken (d : TokenErrDetail)
  | permissionDenied
  | unknownErr
  deriving DecidableEq, Repr

/-! ## Session Manager state and logout (src/core/Auth.ts) -/

/-- In-memory state owned by Auth: the token triple, the permission set
and the persisted copy held by TokenManager (EncryptedStorage). -/
structure AuthState where
  accessToken : Option String
  refreshToken : Option String
  email : Option String
  permissions : List String
  storedTriple : Option (String × String × String)
  deriving DecidableEq, Repr

namespace Auth

/-- Auth.logout: nulls the token triple, empties the permission set and
clears the persisted storage via TokenManager.clear (which swallows its
own storage errors, so logout never throws). -/
def logout (_s : AuthState) : AuthState :=
  { accessToken := none, refreshToken := none, email := none,
    permissions := [], storedTriple := none }

end Auth

/-- State owned by the Softphone facade that its logout touches: the Auth
state, whether a UserAgent instance is held, and whether the AppState
subscription is installed. -/
structure SoftphoneState where
  auth : AuthState
  userAgentRunning : Bool
  appStateSubscribed : Bool
  deriving DecidableEq, Repr

namespace Softphone

/-- Softphone.logout: removes the AppState subscription if present, stops
and drops the UserAgent if present, then delegates to Auth.logout. -/
def logout (s : SoftphoneState) : SoftphoneState :=
  { auth := Auth.logout s.auth, userAgentRunning := false, appStateSubscribed := false }

end Softphone

/-! ## Observable effects of the Softphone facade operations -/

/-- Network and engine side effects performed while a makeCall action
runs: the PATCH profile-update call, the teardown-and-recreate sequence
after an edge domain change, and the delegated SIP invite
(UserAgent.makeCall). -/
inductive Effect
  | profileUpdate
  | edgeReconnect
  | invite
  deriving DecidableEq, Repr

/-- Observable outcome of one run of a wrapped action: the effects it
performed and the exception kind it threw, if any. -/
structure ActionOut where
  trace : List Effect
  error : Option ErrKind
  deriving DecidableEq, Repr

/-- Observable outcome of Softphone.executeWithRetry around an action:
how many times the action ran, which client-credential pairs were passed
to Auth.refreshAccessToken, whether this.logout() was performed, the
accumulated effect trace, and the surfaced error, if any. -/
structure RetryOut where
  attempts : Nat
  refreshCalls : List (String × String)
  didLogout : Bool
  trace : List Effect
  error : Option ErrKind
  deriving DecidableEq, Repr

namespace Softphone

/-- Softphone.executeWithRetry. The action runs once; if it throws an
InvalidTokenException and the statically stored client credentials are
present (truthy), Auth.refreshAccessToken is called once with them
(outcome given by refreshOk). On refresh success the action is run a
second time and that outcome, error included, is returned unchanged (the
second run is not wrapped again, so a second InvalidTokenException
surfaces as-is with no further refresh). On refresh failure this.logout()
runs and an UnauthorizedException surfaces. Missing credentials surface
an UnauthorizedException without any refresh. Any other exception from
the first run is rethrown untouched. The parameter of run distinguishes
the first run (0) from the retry (1). -/
def executeWithRetry (clientId clientSecret : Option String) (refreshOk : Bool)
    (run : Nat → ActionOut) : RetryOut :=
  match (run 0).error with
  | none =>
      { attempts := 1, refreshCalls := [], didLogout := false,
        trace := (run 0).trace, error := none }
  | some e =>
      match e with
      | .invalidToken _ =>
          if truthy clientId = false ∨ truthy clientSecret = false then
            { attempts := 1, refreshCalls := [], didLogout := false,
              trace := (run 0).trace, error := some .unauthorized }
          else
            match clientId, clientSecret with
            | some cid, some cs =>
                if refreshOk then
                  { attempts := 2, refreshCalls := [(cid, cs)], didLogout := false,
                    trace := (run 0).trace ++ (run 1).trace, error := (run 1).error }
                else
                  { attempts := 1, refreshCalls := [(cid, cs)], didLogout := true,
                    trace := (run 0).trace, error := some .unauthorized }
            | _, _ =>
                { attempts := 1, refreshCalls := [], didLogout := false,
                  trace := (run 0).trace, error := some .unauthorized }
      | _ =>
          { attempts := 1, refreshCalls := [], didLogout := false,
            trace := (run 0).trace, error := some e }

end Softphone

/-! ## Softphone.makeCall (src/core/Softphone.ts) -/

/-- Outcome of the PATCH update-userprofile backend call made by
updatePrimaryVirtualNumber: HTTP 200 with the new primary virtual number
and optional edge domain in the payload, HTTP 401, or any other
non-200 status. -/
inductive UpdateOutcome
  | ok (newPrimary : Option String) (edgeDomain : Option String)
  | http401
  | httpError
  deriving DecidableEq, Repr

/-- Observable outcome of the makeCall action body: effect trace, thrown
error if any, the resolved target virtual number (caller id) once
computed, and the facade primaryVN field afterwards. -/
structure MakeCallOut where
  trace : List Effect
  error : Option ErrKind
  effectiveCallerId : Option String
  primaryVNAfter : Option String
  deriving DecidableEq, Repr

namespace Softphone

/-- The body of Softphone.makeCall (the function passed to
executeWithRetry). Checks, in order: login state, the outbound-calls
permission, a non-blank destination, phone-number format validity
(validatePhoneNumber is an external collaborator, modelled by the flag
numberValid). It then resolves the target caller id as
virtualNumber || auth.getPrimaryVN and fails with
MissingParameterException when that is falsy. A profile update runs only
when an explicit virtualNumber is truthy, the cached primary is truthy,
and the two differ; a 401 from the update throws
InvalidTokenException(EXPIRED), another non-200 throws
UnknownException, and on success an edge-domain change triggers the
reconnect sequence. Finally the invite is delegated to
UserAgent.makeCall when a UserAgent instance exists. -/
def makeCallAction (loggedIn : Bool) (permissions : List String)
    (authPrimaryVN softPrimaryVN server : Option String) (uaPresent : Bool)
    (numberBlank numberValid : Bool) (upd : UpdateOutcome)
    (virtualNumber : Option String) : MakeCallOut :=
  if loggedIn = false then
    { trace := [], error := some .unauthorized,
      effectiveCallerId := none, primaryVNAfter := softPrimaryVN }
  else if permissions.contains "outbound calls" = false then
    { trace := [], error := some .permissionDenied,
      effectiveCallerId := none, primaryVNAfter := softPrimaryVN }
  else if numberBlank = true then
    { trace := [], error := some .missingParameter,
      effectiveCallerId := none, primaryVNAfter := softPrimaryVN }
  else if numberValid = false then
    { trace := [], error := some .invalidValue,
      effectiveCallerId := none, primaryVNAfter := softPrimaryVN }
  else
    let target := jsOr virtualNumber authPrimaryVN
    if truthy target = false then
      { trace := [], error := some .missingParameter,
        effectiveCallerId := target, primaryVNAfter := softPrimaryVN }
    else if truthy virtualNumber = true ∧ truthy authPrimaryVN = true ∧
        virtualNumber ≠ authPrimaryVN then
      match upd with
      | .http401 =>
          { trace := [.profileUpdate], error := some (.invalidToken .EXPIRED),
            effectiveCallerId := target, primaryVNAfter := softPrimaryVN }
      | .httpError =>
          { trace := [.profileUpdate], error := some .unknownErr,
            effectiveCallerId := target, primaryVNAfter := softPrimaryVN }
      | .ok newPrimary edgeDomain =>
          { trace := .profileUpdate ::
              ((if truthy edgeDomain && decide (edgeDomain ≠ server)
                then [.edgeReconnect] else []) ++
               (if uaPresent then [.invite] else [])),
            error := none, effectiveCallerId := target,
            primaryVNAfter := newPrimary }
    else
      { trace := if uaPresent then [.invite] else [],
        error := none, effectiveCallerId := target,
        primaryVNAfter := softPrimaryVN }

/-- Softphone.makeCall: the action body above wrapped in
executeWithRetry with the statically stored client credentials. -/
def makeCall (clientId clientSecret : Option String) (refreshOk : Bool)
    (loggedIn : Bool) (permissions : List String)
    (authPrimaryVN softPrimaryVN server : Option String) (uaPresent : Bool)
    (numberBlank numberValid : Bool) (upd : UpdateOutcome)
    (virtualNumber : Option String) : RetryOut :=
  executeWithRetry clientId clientSecret refreshOk (fun _ =>
    { trace := (makeCallAction loggedIn permissions authPrimaryVN softPrimaryVN
        server uaPresent numberBlank numberValid upd virtualNumber).trace,
      error := (makeCallAction loggedIn permissions authPrimaryVN softPrimaryVN
        server uaPresent numberBlank numberValid upd virtualNumber).error })

end Softphone

/-! ## Auth.manualLogin (src/core/Auth.ts) -/

/-- Observable outcome of Auth.manualLogin: number of calls made to
Auth.refreshAccessToken, whether this.logout() was performed before the
error propagated, the thrown error kind if any, and whether the triple
was persisted via TokenManager.save. -/
structure MLOut where
  refreshAttempts : Nat
  didLogout : Bool
  error : Option ErrKind
  savedToStorage : Bool
  deriving DecidableEq, Repr

namespace Auth

/-- Auth.manualLogin. A falsy accessToken, email or refreshToken throws
MissingParameterException. Otherwise the access token is classified by
isTokenValid: EXPIRED with truthy clientId and clientSecret performs one
refreshAccessToken call (outcome refreshOk) before verification, and on
refresh failure performs logout and throws
InvalidTokenException(EXPIRED); EXPIRED without both credentials
performs logout and throws InvalidTokenException(EXPIRED) with no
refresh; INVALID performs logout and throws
InvalidTokenException(INVALID) with no refresh. Verification
(retrieveUserRoles, outcome verifyErr) then runs; on failure logout runs
and the error is rethrown; on success the triple is persisted. -/
def manualLogin (now : Int) (accessToken : JwtToken)
    (email refreshToken clientId clientSecret : Option String)
    (refreshOk : Bool) (verifyErr : Option ErrKind) : MLOut :=
  if accessToken = .empty ∨ truthy email = false ∨ truthy refreshToken = false then
    { refreshAttempts := 0, didLogout := false,
      error := some .missingParameter, savedToStorage := false }
  else
    match isTokenValid now accessToken with
    | .expired =>
        if truthy clientId && truthy clientSecret then
          if refreshOk then
            match verifyErr with
            | some e =>
                { refreshAttempts := 1, didLogout := true,
                  error := some e, savedToStorage := false }
            | none =>
                { refreshAttempts := 1, didLogout := false,
                  error := none, savedToStorage := true }
          else
            { refreshAttempts := 1, didLogout := true,
              error := some (.invalidToken .EXPIRED), savedToStorage := false }
        else
          { refreshAttempts := 0, didLogout := true,
            error := some (.invalidToken .EXPIRED), savedToStorage := false }
    | .invalid =>
        { refreshAttempts := 0, didLogout := true,
          error := some (.invalidToken .INVALID), savedToStorage := false }
    | .valid =>
        match verifyErr with
        | some e =>
            { refreshAttempts := 0, didLogout := true,
              error := some e, savedToStorage := false }
        | none =>
            { refreshAttempts := 0, didLogout := false,
              error := none, savedToStorage := true }

end Auth

/-! ## UserAgent registration retry machinery (src/core/UserAgent.ts) -/

namespace UserAgent

/-- The fixed registration retry cap (field maxRetryAttempts). -/
def maxRetryAttempts : Nat := 3

/-- The mutable UserAgent fields the registerer state listener touches. -/
structure UAState where
  reRegisterAttempts : Nat
  updatingAuth : Bool
  deriving DecidableEq, Repr

/-- Registerer state transitions observed by the listener installed in
startRegistration. -/
inductive RegEvent
  | unregistered
  | registered
  deriving DecidableEq, Repr

/-- UserAgent.unregister: sets reRegisterAttempts to 3 before sending the
protocol unregister request. -/
def unregister (s : UAState) : UAState :=
  { s with reRegisterAttempts := 3 }

/-- One firing of the registerer stateChange listener from
startRegistration. On Unregistered, when not updating auth, still logged
in, and reRegisterAttempts < maxRetryAttempts: the counter is
incremented and reRegister runs, whose first step is this.unregister()
(which sets the counter to 3); the returned Nat counts the reRegister
calls made by this firing. On Registered the counter resets to zero. -/
def onRegistererStateChange (loggedIn : Bool) (s : UAState) :
    RegEvent → UAState × Nat
  | .unregistered =>
      if s.updatingAuth = false ∧ loggedIn = true ∧
          s.reRegisterAttempts < maxRetryAttempts then
        (unregister { s with reRegisterAttempts := s.reRegisterAttempts + 1 }, 1)
      else
        (s, 0)
  | .registered => ({ s with reRegisterAttempts := 0 }, 0)

/-- Runs a sequence of registerer state transitions through the listener,
accumulating the number of automatic re-registration attempts. -/
def runRegEvents (loggedIn : Bool) : UAState → List RegEvent → UAState × Nat
  | s, [] => (s, 0)
  | s, e :: es =>
      let p := onRegistererStateChange loggedIn s e
      let q := runRegEvents loggedIn p.1 es
      (q.1, p.2 + q.2)

/-- The guard `token && isTokenValid(token) !== true` applied to a
nullable token string. -/
def tokenStale (now : Int) : Option JwtToken → Bool
  | none => false
  | some .empty => false
  | some t => decide (isTokenValid now t ≠ .valid)

/-- Observable outcome of one reRegister call: whether a SIP-token
exchange (updateToken, i.e. Auth.registerSoftphone) was performed, the
value of reRegisterAttempts afterwards, and whether startRegistration
was invoked again. -/
structure ReRegisterOut where
  sipTokenExchanged : Bool
  reRegisterAttemptsAfter : Nat
  registrationRestarted : Bool
  deriving DecidableEq, Repr

/-- UserAgent.reRegister, latest revision: this.unregister() runs first
(setting reRegisterAttempts to 3); then, whenever the SIP token is
present and not valid, updateToken runs unconditionally - the validity
of the access token is never consulted; finally the registerer is
dropped and startRegistration runs again. -/
def reRegister (now : Int) (sipToken _accessToken : Option JwtToken) : ReRegisterOut :=
  { sipTokenExchanged := tokenStale now sipToken,
    reRegisterAttemptsAfter := 3,
    registrationRestarted := true }

/-- UserAgent.reRegister as in the earlier revision of
src/core/UserAgent.ts: this.unregister() runs first (setting
reRegisterAttempts to 3); when the SIP token is stale, the access token
is inspected, and if it is present and not valid the method returns at
once with no SIP-token exchange and no new registration; otherwise
updateToken runs; then startRegistration runs again. -/
def reRegisterPrior (now : Int) (sipToken accessToken : Option JwtToken) : ReRegisterOut :=
  if tokenStale now sipToken then
    if tokenStale now accessToken then
      { sipTokenExchanged := false, reRegisterAttemptsAfter := 3,
        registrationRestarted := false }
    else
      { sipTokenExchanged := true, reRegisterAttemptsAfter := 3,
        registrationRestarted := true }
  else
    { sipTokenExchanged := false, reRegisterAttemptsAfter := 3,
      registrationRestarted := true }

end UserAgent

/-! ## Call Session state listener (src/core/Session.ts) -/

/-- Listener callbacks emitted by the Session stateChange listener,
tagged with the identifier of the session that emitted them. -/
inductive ListenerEvent
  | callRinging (sid : Nat)
  | callAnswered (sid : Nat)
  | callHangup (sid : Nat)
  deriving DecidableEq, Repr

/-- The single current-session slot held by the UserAgent (field
session), holding the identifier of the referenced Session, if any. -/
structure UASessions where
  current : Option Nat
  deriving DecidableEq, Repr

/-- UserAgent.clearSession: unconditionally nulls the current-session
slot. -/
def clearSession (_ : UASessions) : UASessions := { current := none }

/-- Dialog states observed by the Session stateChange listener. -/
inductive SessState
  | initial
  | establishing
  | established
  | terminating
  | terminated
  deriving DecidableEq, Repr

/-- The Session stateChange listener, for the session identified by sid
against the agent slot state ua: Establishing emits onCallRinging,
Established emits onCallAnswered, Terminated emits onCallHangup and then
calls the agent clearSession; other states emit nothing. -/
def onSessionStateChange (ua : UASessions) (sid : Nat) :
    SessState → List ListenerEvent × UASessions
  | .establishing => ([.callRinging sid], ua)
  | .established => ([.callAnswered sid], ua)
  | .terminated => ([.callHangup sid], clearSession ua)
  | _ => ([], ua)

/-! ## Theorems -/

/-- Claim C10: isTokenValid is a total trichotomy. For every token and
current time it returns exactly one of valid, EXPIRED or INVALID; it is
valid iff the token decodes with a numeric exp strictly greater than the
current time, EXPIRED iff it decodes with a numeric exp less than or
equal to the current time, and INVALID for the empty string, an
undecodable token, or a decoded token whose exp is not a number. -/
theorem C10_isTokenValid_trichotomy (now : Int) (t : JwtToken) :
    (isTokenValid now t = .valid ∨ isTokenValid now t = .expired ∨
      isTokenValid now t = .invalid) ∧
    (isTokenValid now t = .valid ↔ ∃ e, t = .decoded (some e) ∧ now < e) ∧
    (isTokenValid now t = .expired ↔ ∃ e, t = .decoded (some e) ∧ e ≤ now) ∧
    (isTokenValid now t = .invalid ↔
      (t = .empty ∨ t = .undecodable ∨ t = .decoded none)) := by
  rcases t with _ | _ | exp
  · simp [isTokenValid]
  · simp [isTokenValid]
  · rcases exp with _ | e
    · simp [isTokenValid]
    · by_cases h : now < e
      · simp [isTokenValid, h]
      · simp [isTokenValid, h]
        omega

/-- Claim C9: logout is idempotent. Applying Softphone.logout twice
yields the same state as applying it once, the resulting Auth state is
the fully cleared one (null token triple, empty permission set, cleared
persisted storage), and since logout is a total function the second call
raises no error. -/
theorem C9_logout_idempotent (s : SoftphoneState) :
    Softphone.logout (Softphone.logout s) = Softphone.logout s ∧
    Auth.logout (Auth.logout s.auth) = Auth.logout s.auth ∧
    (Softphone.logout s).auth =
      { accessToken := none, refreshToken := none, email := none,
        permissions := [], storedTriple := none } ∧
    (Softphone.logout s).userAgentRunning = false ∧
    (Softphone.logout s).appStateSubscribed = false :=
  ⟨rfl, rfl, rfl, rfl, rfl⟩

/-- Claim C2 evaluation: running the registerer state listener (latest
revision of src/core/UserAgent.ts) on three consecutive Unregistered
transitions while logged in, from a fresh state, performs exactly ONE
automatic re-registration attempt, not three: the first reRegister call
invokes this.unregister(), which sets reRegisterAttempts to the cap 3,
so the second and third Unregistered transitions fail the
reRegisterAttempts < maxRetryAttempts guard. A fourth transition adds no
attempt either, and reaching Registered does reset the counter to zero
(the one part of the claim the code satisfies). -/
theorem C2_three_unregistered_yield_one_attempt :
    (UserAgent.runRegEvents true { reRegisterAttempts := 0, updatingAuth := false }
      [.unregistered, .unregistered, .unregistered]).2 = 1 ∧
    (UserAgent.runRegEvents true { reRegisterAttempts := 0, updatingAuth := false }
      [.unregistered, .unregistered, .unregistered, .unregistered]).2 = 1 ∧
    (UserAgent.runRegEvents true { reRegisterAttempts := 0, updatingAuth := false }
      [.unregistered, .unregistered, .unregistered]).1.reRegisterAttempts = 3 ∧
    (UserAgent.onRegistererStateChange true
      { reRegisterAttempts := 3, updatingAuth := false }
      .registered).1.reRegisterAttempts = 0 := by
  decide

/-- Claim C3 evaluation: in the latest revision of
UserAgent.reRegister, when the SIP token is expired AND the access token
is also expired (both decode with exp 0, current time 10), a SIP-token
exchange IS performed and registration is restarted; the access token is
never consulted. The earlier revision kept in
src/src/core/UserAgent.ts behaves as the claim states: no exchange, no
restart, retry budget pinned at the cap. -/
theorem C3_expired_access_token_still_exchanged :
    UserAgent.reRegister 10 (some (.decoded (some 0))) (some (.decoded (some 0))) =
      { sipTokenExchanged := true, reRegisterAttemptsAfter := 3,
        registrationRestarted := true } ∧
    UserAgent.reRegisterPrior 10 (some (.decoded (some 0))) (some (.decoded (some 0))) =
      { sipTokenExchanged := false, reRegisterAttemptsAfter := 3,
        registrationRestarted := false } := by
  decide

/-- Claim C7 counterexample: the claim says clearing is scoped to the
session that terminated rather than indiscriminately nulling a
different, still-active current session. Concretely, with the agent
current-session slot holding session 2, a Terminated transition of the
stale session 1 should leave the slot untouched; the code instead nulls
it (clearSession takes no session argument and always clears). -/
theorem C7_counterexample :
    ({ current := some 2 } : UASessions).current ≠ some 1 ∧
    (onSessionStateChange { current := some 2 } 1 .terminated).2.current ≠
      ({ current := some 2 } : UASessions).current := by
  decide

/-- Claim C7 as amended: whenever a dialog reaches Terminated, the
session emits onCallHangup and calls the agent clearSession, which
unconditionally nulls the current-session slot; afterwards the slot
refers to no session at all - in particular not to the terminated one,
but also not to any other still-active session that occupied it. Scoping
to the terminated session is not implemented at the agent layer; fork
filtering is delegated to the application. -/
theorem C7_terminated_clears_current_slot (ua : UASessions) (sid : Nat) :
    (onSessionStateChange ua sid .terminated).2.current = none ∧
    (onSessionStateChange ua sid .terminated).2.current ≠ some sid ∧
    (onSessionStateChange ua sid .terminated).1 = [.callHangup sid] := by
  refine ⟨rfl, ?_, rfl⟩
  simp [onSessionStateChange, clearSession]

/-- Claim C1: for an operation wrapped by executeWithRetry whose first
run fails with an InvalidTokenException, and with the statically stored
client credentials present, exactly one refresh attempt is made and it
uses exactly those credentials; if the refresh succeeds the action runs
exactly one more time and even a second InvalidTokenException from that
retry surfaces unchanged with no further refresh; if the refresh fails,
logout is performed and the surfaced error is UnauthorizedException. -/
theorem C1_retry_policy (cid cs : String) (hc : cid.isEmpty = false)
    (hs : cs.isEmpty = false) (refreshOk : Bool) (run : Nat → ActionOut)
    (d : TokenErrDetail) (h0 : (run 0).error = some (.invalidToken d)) :
    (Softphone.executeWithRetry (some cid) (some cs) refreshOk run).refreshCalls =
      [(cid, cs)] ∧
    (refreshOk = true →
      (Softphone.executeWithRetry (some cid) (some cs) refreshOk run).attempts = 2 ∧
      (Softphone.executeWithRetry (some cid) (some cs) refreshOk run).error =
        (run 1).error ∧
      (Softphone.executeWithRetry (some cid) (some cs) refreshOk run).didLogout =
        false) ∧
    (refreshOk = false →
      (Softphone.executeWithRetry (some cid) (some cs) refreshOk run).attempts = 1 ∧
      (Softphone.executeWithRetry (some cid) (some cs) refreshOk run).didLogout =
        true ∧
      (Softphone.executeWithRetry (some cid) (some cs) refreshOk run).error =
        some .unauthorized) := by
  cases refreshOk <;>
    simp [Softphone.executeWithRetry, h0, truthy, hc, hs]

/-- Witness for C1 at a concrete wrapped action that throws an
InvalidTokenException on every run: one refresh with the stored
credentials, two runs, and the second failure surfaces unchanged. -/
theorem C1_retry_policy_witness :
    (Softphone.executeWithRetry (some "id") (some "secret") true
      (fun _ => { trace := [], error := some (.invalidToken .EXPIRED) })).refreshCalls =
      [("id", "secret")] ∧
    (Softphone.executeWithRetry (some "id") (some "secret") true
      (fun _ => { trace := [], error := some (.invalidToken .EXPIRED) })).attempts = 2 ∧
    (Softphone.executeWithRetry (some "id") (some "secret") true
      (fun _ => { trace := [], error := some (.invalidToken .EXPIRED) })).error =
      some (.invalidToken .EXPIRED) := by
  have h := C1_retry_policy "id" "secret" (by decide) (by decide) true
    (fun _ => { trace := [], error := some (.invalidToken .EXPIRED) }) .EXPIRED rfl
  exact ⟨h.1, (h.2.1 rfl).1, (h.2.1 rfl).2.1⟩

/-- Claim C4: Auth.manualLogin. A missing accessToken, email or
refreshToken fails with MissingParameterException and nothing else
happens. When all three are present: an EXPIRED access token with both
client credentials supplied performs exactly one refresh before
verification; an EXPIRED access token without both client credentials
fails with InvalidTokenException(EXPIRED) after logout, with no refresh;
a structurally INVALID token fails with InvalidTokenException(INVALID)
after logout, with no refresh request. Finally, every failure other than
the missing-parameter one (in particular every verification failure)
performs logout before the error propagates. -/
theorem C4_manualLogin_policy (now : Int) (tok : JwtToken)
    (email rt cid cs : Option String) (refreshOk : Bool)
    (verifyErr : Option ErrKind) :
    ((tok = .empty ∨ truthy email = false ∨ truthy rt = false) →
      Auth.manualLogin now tok email rt cid cs refreshOk verifyErr =
        { refreshAttempts := 0, didLogout := false,
          error := some .missingParameter, savedToStorage := false }) ∧
    (tok ≠ .empty → truthy email = true → truthy rt = true →
      ((isTokenValid now tok = .expired → truthy cid = true → truthy cs = true →
        (Auth.manualLogin now tok email rt cid cs refreshOk
          verifyErr).refreshAttempts = 1) ∧
       (isTokenValid now tok = .expired → (truthy cid && truthy cs) = false →
        Auth.manualLogin now tok email rt cid cs refreshOk verifyErr =
          { refreshAttempts := 0, didLogout := true,
            error := some (.invalidToken .EXPIRED), savedToStorage := false }) ∧
       (isTokenValid now tok = .invalid →
        Auth.manualLogin now tok email rt cid cs refreshOk verifyErr =
          { refreshAttempts := 0, didLogout := true,
            error := some (.invalidToken .INVALID), savedToStorage := false }))) ∧
    (∀ e : ErrKind,
      (Auth.manualLogin now tok email rt cid cs refreshOk verifyErr).error =
        some e →
      e ≠ .missingParameter →
      (Auth.manualLogin now tok email rt cid cs refreshOk verifyErr).didLogout =
        true) := by
  refine ⟨?_, ?_, ?_⟩
  · intro h
    simp only [Auth.manualLogin, if_pos h]
  · intro h1 h2 h3
    have hcond : ¬(tok = JwtToken.empty ∨ truthy email = false ∨
        truthy rt = false) := by
      simp [h1, h2, h3]
    refine ⟨?_, ?_, ?_⟩
    · intro hx hcid hcs
      simp [Auth.manualLogin, hcond, hx, hcid, hcs]
      cases refreshOk <;> cases verifyErr <;> simp
    · intro hx hb
      simp [Auth.manualLogin, hcond, hx, hb]
    · intro hx
      simp [Auth.manualLogin, hcond, hx]
  · intro e he hne
    by_cases h : (tok = JwtToken.empty ∨ truthy email = false ∨
        truthy rt = false) <;>
      cases hx : isTokenValid now tok <;>
      cases hb : truthy cid <;> cases hbs : truthy cs <;>
      cases refreshOk <;> cases verifyErr <;>
      simp_all [Auth.manualLogin]

/-- Witness for C4 at a concrete input: an expired access token (exp 0
at time 10) with email and refresh token present but no client
credentials fails with InvalidTokenException(EXPIRED), no refresh
attempt, logout performed. -/
theorem C4_manualLogin_policy_witness :
    Auth.manualLogin 10 (.decoded (some 0)) (some "user") (some "rtok")
      none none true none =
      { refreshAttempts := 0, didLogout := true,
        error := some (.invalidToken .EXPIRED), savedToStorage := false } :=
  ((C4_manualLogin_policy 10 (.decoded (some 0)) (some "user") (some "rtok")
      none none true none).2.1 (by decide) (by decide) (by decide)).2.1
    (by decide) (by decide)

/-- Claim C6: a makeCall invocation with a non-blank destination that
fails phone-number format validation fails with InvalidValueException
before any network effect, and the refresh-and-retry wrapper never
intercepts it: no refresh call, no logout, a single run of the action,
and an empty effect trace. -/
theorem C6_invalid_number_never_retried (perms : List String)
    (apv spv server : Option String) (uaPresent : Bool) (upd : UpdateOutcome)
    (vn cid cs : Option String) (refreshOk : Bool)
    (hperm : perms.contains "outbound calls" = true) :
    Softphone.makeCall cid cs refreshOk true perms apv spv server uaPresent
      false false upd vn =
      { attempts := 1, refreshCalls := [], didLogout := false,
        trace := [], error := some .invalidValue } := by
  have hmem : "outbound calls" ∈ perms := by simpa using hperm
  simp [Softphone.makeCall, Softphone.makeCallAction, Softphone.executeWithRetry,
    hmem]

/-- Witness for C6 at concrete inputs. -/
theorem C6_invalid_number_never_retried_witness :
    Softphone.makeCall (some "id") (some "secret") true true ["outbound calls"]
      (some "A") none none true false false (.ok none none) none =
      { attempts := 1, refreshCalls := [], didLogout := false,
        trace := [], error := some .invalidValue } :=
  C6_invalid_number_never_retried ["outbound calls"] (some "A") none none true
    (.ok none none) none (some "id") (some "secret") true (by decide)

/-- Claim C8: a makeCall invocation without an explicit caller id
resolves the effective caller id to the cached Primary Caller ID when
one is cached (and proceeds without error); when no Primary Caller ID is
cached (absent or empty), it fails with MissingParameterException and
the effect trace is empty, so no invite is sent. -/
theorem C8_default_caller_id (perms : List String) (spv server : Option String)
    (uaPresent : Bool) (upd : UpdateOutcome)
    (hperm : perms.contains "outbound calls" = true) :
    (∀ p : String, p.isEmpty = false →
      (Softphone.makeCallAction true perms (some p) spv server uaPresent false
        true upd none).effectiveCallerId = some p ∧
      (Softphone.makeCallAction true perms (some p) spv server uaPresent false
        true upd none).error = none) ∧
    (∀ apv : Option String, truthy apv = false →
      (Softphone.makeCallAction true perms apv spv server uaPresent false
        true upd none).error = some .missingParameter ∧
      (Softphone.makeCallAction true perms apv spv server uaPresent false
        true upd none).trace = []) := by
  have hmem : "outbound calls" ∈ perms := by simpa using hperm
  constructor
  · intro p hp
    simp [Softphone.makeCallAction, jsOr, truthy, hmem, hp]
  · intro apv hap
    cases apv with
    | none => simp [Softphone.makeCallAction, jsOr, truthy, hmem]
    | some s =>
        have hs : s.isEmpty = true := by simpa [truthy] using hap
        simp [Softphone.makeCallAction, jsOr, truthy, hmem, hs]

/-- Witness for C8 at concrete inputs: with cached primary "A" and no
explicit caller id the effective caller id is "A"; with no cached
primary and no explicit caller id the call fails with
MissingParameterException. -/
theorem C8_default_caller_id_witness :
    (Softphone.makeCallAction true ["outbound calls"] (some "A") none none true
      false true (.ok none none) none).effectiveCallerId = some "A" ∧
    (Softphone.makeCallAction true ["outbound calls"] none none none true
      false true (.ok none none) none).error = some .missingParameter := by
  have h := C8_default_caller_id ["outbound calls"] none none true (.ok none none)
    (by decide)
  exact ⟨(h.1 "A" (by decide)).1, (h.2 none (by decide)).1⟩
